import Mathlib

/-
  Shallow embedding of the Risk Scoring Engine of the insurance-pricing
  repository (src/backend_api.py), together with proofs checking the
  natural-language specification against it.

  Modelling conventions:
  * Python floats are modelled as exact rationals (ℚ); `round(x, n)` is
    modelled as decimal rounding half-to-even (`roundTo`).
  * The pandas historical DataFrame is modelled as a `List HistRow`;
    row filters become `List.filter`, `.mean()` becomes `qmean`.
  * `pd.Timestamp.today()` (read inside `_estimate_policy_metrics`) is made
    an explicit parameter `today` (a day number); a parsed
    `policy_issue_date` is a day number, `none` standing for a value that
    `pd.to_datetime(..., errors="coerce")` turns into NaT.
  * A Python `KeyError` raised by a dict subscript is modelled by
    `Except.error (ScoreError.keyError key)`.
  * Display-only strings (the `value` and `explanation` fields of a scoring
    step, and the executive summary) are narrative text and are not
    modelled; all numeric and categorical outputs are.
-/

set_option maxRecDepth 40000

namespace InsurancePricing

/-- Round a rational to the nearest integer, ties going to the even integer
(the behaviour of Python's built-in `round`). -/
def roundHalfEven (x : ℚ) : ℤ :=
  let n := ⌊x⌋
  let r := x - (n : ℚ)
  if r < 1/2 then n
  else if 1/2 < r then n + 1
  else if n % 2 = 0 then n else n + 1

/-- Python's `round(x, places)`: round to a number of decimal places. -/
def roundTo (places : ℕ) (x : ℚ) : ℚ :=
  (roundHalfEven (x * (10 : ℚ) ^ places) : ℚ) / (10 : ℚ) ^ places

/-- Mean of a list of rationals (`pandas .mean()`; only ever used on
non-empty lists by the engine, guarded by length checks). -/
def qmean (l : List ℚ) : ℚ := l.sum / (l.length : ℚ)

/-- The applicant record (`CustomerInput` in src/backend_api.py). -/
structure Customer where
  customer_id : String
  age : ℚ
  gender : String
  occupation : String
  occupation_class : String
  height_inches : ℚ
  weight_lbs : ℚ
  bmi : ℚ
  blood_pressure_systolic : ℤ
  blood_pressure_diastolic : ℤ
  total_cholesterol : ℤ
  hdl_cholesterol : ℤ
  ldl_cholesterol : ℤ
  smoking_status : String
  alcohol_consumption : String
  exercise_frequency : String
  chronic_conditions : String
  family_history : String
  dangerous_hobbies : String
  annual_income : ℤ
  coverage_amount_requested : ℤ
  credit_score : ℤ
  existing_coverage : ℤ
  deriving DecidableEq

/-- One row of the historical customers table (the columns the engine
reads). `policy_issue_date` is the parsed issue date as a day number;
`none` models a date that fails to parse (NaT). -/
structure HistRow where
  age : ℚ
  gender : String
  occupation_class : String
  bmi : ℚ
  blood_pressure_systolic : ℤ
  total_cholesterol : ℤ
  smoking_status : String
  alcohol_consumption : String
  exercise_frequency : String
  chronic_conditions : String
  family_history : String
  dangerous_hobbies : String
  risk_score_assigned : ℚ
  annual_premium_assigned : ℚ
  claim_filed : Bool
  policy_accepted : Bool
  policy_active : Bool
  policy_issue_date : Option ℤ
  deriving DecidableEq

/-- One step of the scoring process (`ScoringStep` in src/backend_api.py),
without the display-only `value` and `explanation` strings.
`supporting_data` is the cohort-comparison dict as key/value pairs. -/
structure ScoringStep where
  category : String
  factor : String
  risk_contribution : ℚ
  weight : ℚ
  weighted_score : ℚ
  supporting_data : List (String × ℚ)
  deriving DecidableEq

/-- The complete pricing result (`PricingResult` in src/backend_api.py),
without the display-only `summary` string and the out-of-scope
`ai_pattern_analysis` field. -/
structure PricingResult where
  customer_id : String
  final_risk_score : ℚ
  annual_premium_low : ℚ
  annual_premium_calculated : ℚ
  annual_premium_recommended : ℚ
  annual_premium_high : ℚ
  predicted_policy_duration_years : ℚ
  attrition_likelihood : ℚ
  scoring_steps : List ScoringStep
  confidence_level : String
  deriving DecidableEq

/-- Errors a scoring call can surface.  `keyError` is the Python `KeyError`
raised by an unmapped dict subscript and carries exactly what the exception
carries: the missing key.  `invalidCategory` is modelled from the spec: the
structured error (field name and value) that the spec's error policy
describes; the source never constructs it, and it exists here only so that
the spec's expectation can be stated and compared against the code. -/
inductive ScoreError where
  | keyError (key : String)
  | invalidCategory (field : String) (value : String)
  deriving DecidableEq

deriving instance DecidableEq for Except

/-- Python `str.strip()`: drop whitespace from both ends. -/
def pyStrip (s : String) : String :=
  ⟨((s.data.dropWhile Char.isWhitespace).reverse.dropWhile Char.isWhitespace).reverse⟩

/-- Python `str.lower()`: lower-case every character. -/
def pyLower (s : String) : String := ⟨s.data.map Char.toLower⟩

/-- Python `str.split(sep)` for a one-character separator, on the
character list: always returns at least one (possibly empty) field. -/
def splitOnChar (sep : Char) : List Char → List (List Char)
  | [] => [[]]
  | c :: cs =>
    if c = sep then [] :: splitOnChar sep cs
    else
      match splitOnChar sep cs with
      | [] => [[c]]
      | g :: gs => (c :: g) :: gs

/-- Python `s.split(sep)` for a one-character separator. -/
def pySplit (sep : Char) (s : String) : List String :=
  (splitOnChar sep s.data).map (fun l => ⟨l⟩)

/-- `_normalize_string_field` from src/backend_api.py with its `default`
parameter left at its only used value `"None"`: `None`/NaN becomes
`"None"`, otherwise the value is stripped and, if it is `""` or a spelling
of `"nan"`, collapsed to `"None"`. -/
def normalize_string_field (value : Option String) : String :=
  match value with
  | none => "None"
  | some s =>
    let val := pyStrip s
    if pyLower val = "nan" ∨ pyLower val = "" then "None" else val

/-- `normalize_customer_inputs`: normalize the nine text fields. -/
def normalize_customer_inputs (c : Customer) : Customer :=
  { c with
    gender := normalize_string_field (some c.gender)
    occupation := normalize_string_field (some c.occupation)
    occupation_class := normalize_string_field (some c.occupation_class)
    smoking_status := normalize_string_field (some c.smoking_status)
    alcohol_consumption := normalize_string_field (some c.alcohol_consumption)
    exercise_frequency := normalize_string_field (some c.exercise_frequency)
    chronic_conditions := normalize_string_field (some c.chronic_conditions)
    family_history := normalize_string_field (some c.family_history)
    dangerous_hobbies := normalize_string_field (some c.dangerous_hobbies) }

/-- A Python dict of risk factors, as an association list. -/
abbrev RiskMap := List (String × ℚ)

/-- Subscripting a risk dict: `risk_map[key]` returns the value or raises
`KeyError(key)`. -/
def dictGet (m : RiskMap) (k : String) : Except ScoreError ℚ :=
  match m.lookup k with
  | some v => Except.ok v
  | none => Except.error (ScoreError.keyError k)

/-- The occupation-class risk dict of `_score_occupation`. -/
def occupation_risk_map : RiskMap :=
  [("Class I (Low Risk)", 2/10),
   ("Class II (Moderate Risk)", 4/10),
   ("Class III (High Risk)", 7/10),
   ("Class IV (Very High Risk)", 9/10)]

/-- The smoking-status risk dict of `_score_smoking`. -/
def smoking_risk_map : RiskMap :=
  [("Never", 1/10),
   ("Former (>5 years)", 3/10),
   ("Former (<5 years)", 5/10),
   ("Current", 95/100)]

/-- The alcohol-consumption risk dict of `_score_alcohol`. -/
def alcohol_risk_map : RiskMap :=
  [("None", 2/10),
   ("Light (1-2/week)", 25/100),
   ("Moderate (3-7/week)", 4/10),
   ("Heavy (>7/week)", 8/10)]

/-- The exercise-frequency risk dict of `_score_exercise`. -/
def exercise_risk_map : RiskMap :=
  [("Sedentary", 7/10),
   ("Light (1-2/week)", 5/10),
   ("Moderate (3-4/week)", 3/10),
   ("Active (5+/week)", 15/100)]

/-- `_score_age`: tiered age risk, 20% weight, age ± 5 cohort comparison. -/
def score_age (hist : Option (List HistRow)) (c : Customer) : ScoringStep :=
  let age := c.age
  let weight : ℚ := 20/100
  let risk : ℚ :=
    if age < 30 then 1/10
    else if age < 40 then 15/100
    else if age < 50 then 25/100
    else if age < 60 then 4/10
    else if age < 70 then 6/10
    else 8/10
  let weighted_score := risk * weight
  let comparison_data : List (String × ℚ) :=
    match hist with
    | none => []
    | some df =>
      let age_cohort := df.filter (fun r => decide (age - 5 ≤ r.age ∧ r.age ≤ age + 5))
      if 0 < age_cohort.length then
        [("cohort_size", (age_cohort.length : ℚ)),
         ("avg_risk_score", roundTo 2 (qmean (age_cohort.map (fun r => r.risk_score_assigned)))),
         ("claim_rate", roundTo 2 (qmean (age_cohort.map (fun r => if r.claim_filed then 1 else 0)) * 100))]
      else []
  { category := "Demographics"
    factor := "Age"
    risk_contribution := risk
    weight := weight
    weighted_score := roundTo 4 weighted_score
    supporting_data := comparison_data }

/-- `_score_gender`: 0.55 for the exact string `"Male"`, otherwise 0.45;
5% weight; same-gender cohort comparison. -/
def score_gender (hist : Option (List HistRow)) (c : Customer) : ScoringStep :=
  let gender := c.gender
  let weight : ℚ := 5/100
  let risk : ℚ := if gender = "Male" then 55/100 else 45/100
  let weighted_score := risk * weight
  let comparison_data : List (String × ℚ) :=
    match hist with
    | none => []
    | some df =>
      let gender_data := df.filter (fun r => r.gender == gender)
      if 0 < gender_data.length then
        [("cohort_size", (gender_data.length : ℚ)),
         ("avg_risk_score", roundTo 2 (qmean (gender_data.map (fun r => r.risk_score_assigned)))),
         ("avg_premium", roundTo 2 (qmean (gender_data.map (fun r => r.annual_premium_assigned))))]
      else []
  { category := "Demographics"
    factor := "Gender"
    risk_contribution := risk
    weight := weight
    weighted_score := roundTo 4 weighted_score
    supporting_data := comparison_data }

/-- `_score_occupation`: dict lookup on the occupation class (raises
`KeyError` on an unmapped class), 10% weight. -/
def score_occupation (hist : Option (List HistRow)) (c : Customer) :
    Except ScoreError ScoringStep :=
  match dictGet occupation_risk_map c.occupation_class with
  | Except.error e => Except.error e
  | Except.ok risk =>
    let weight : ℚ := 10/100
    let weighted_score := risk * weight
    let comparison_data : List (String × ℚ) :=
      match hist with
      | none => []
      | some df =>
        let occ_data := df.filter (fun r => r.occupation_class == c.occupation_class)
        if 0 < occ_data.length then
          [("cohort_size", (occ_data.length : ℚ)),
           ("avg_risk_score", roundTo 2 (qmean (occ_data.map (fun r => r.risk_score_assigned)))),
           ("claim_rate", roundTo 2 (qmean (occ_data.map (fun r => if r.claim_filed then 1 else 0)) * 100))]
        else []
    Except.ok
      { category := "Demographics"
        factor := "Occupation"
        risk_contribution := risk
        weight := weight
        weighted_score := roundTo 4 weighted_score
        supporting_data := comparison_data }

/-- `_score_bmi`: banded BMI risk, 15% weight, BMI ± 2 cohort comparison. -/
def score_bmi (hist : Option (List HistRow)) (c : Customer) : ScoringStep :=
  let bmi := c.bmi
  let weight : ℚ := 15/100
  let risk : ℚ :=
    if bmi < 185/10 then 4/10
    else if bmi < 25 then 2/10
    else if bmi < 30 then 4/10
    else if bmi < 35 then 6/10
    else if bmi < 40 then 8/10
    else 95/100
  let weighted_score := risk * weight
  let comparison_data : List (String × ℚ) :=
    match hist with
    | none => []
    | some df =>
      let bmi_cohort := df.filter (fun r => decide (bmi - 2 ≤ r.bmi ∧ r.bmi ≤ bmi + 2))
      if 0 < bmi_cohort.length then
        [("cohort_size", (bmi_cohort.length : ℚ)),
         ("avg_risk_score", roundTo 2 (qmean (bmi_cohort.map (fun r => r.risk_score_assigned)))),
         ("chronic_condition_rate",
          roundTo 2 (qmean (bmi_cohort.map (fun r => if r.chronic_conditions ≠ "None" then 1 else 0)) * 100))]
      else []
  { category := "Health Metrics"
    factor := "Body Mass Index (BMI)"
    risk_contribution := risk
    weight := weight
    weighted_score := roundTo 4 weighted_score
    supporting_data := comparison_data }

/-- `_score_blood_pressure`: staged systolic bands, 10% weight,
systolic ± 10 cohort comparison. -/
def score_blood_pressure (hist : Option (List HistRow)) (c : Customer) : ScoringStep :=
  let systolic := c.blood_pressure_systolic
  let weight : ℚ := 10/100
  let risk : ℚ :=
    if systolic < 120 then 1/10
    else if systolic < 130 then 3/10
    else if systolic < 140 then 5/10
    else if systolic < 160 then 7/10
    else 9/10
  let weighted_score := risk * weight
  let comparison_data : List (String × ℚ) :=
    match hist with
    | none => []
    | some df =>
      let bp_cohort := df.filter
        (fun r => decide (systolic - 10 ≤ r.blood_pressure_systolic ∧
                          r.blood_pressure_systolic ≤ systolic + 10))
      if 0 < bp_cohort.length then
        [("cohort_size", (bp_cohort.length : ℚ)),
         ("avg_risk_score", roundTo 2 (qmean (bp_cohort.map (fun r => r.risk_score_assigned))))]
      else []
  { category := "Health Metrics"
    factor := "Blood Pressure"
    risk_contribution := risk
    weight := weight
    weighted_score := roundTo 4 weighted_score
    supporting_data := comparison_data }

/-- `_score_cholesterol`: total-cholesterol bands, 8% weight,
total ± 20 cohort comparison. -/
def score_cholesterol (hist : Option (List HistRow)) (c : Customer) : ScoringStep :=
  let total_chol := c.total_cholesterol
  let weight : ℚ := 8/100
  let risk : ℚ :=
    if total_chol < 200 then 2/10
    else if total_chol < 240 then 5/10
    else 8/10
  let weighted_score := risk * weight
  let comparison_data : List (String × ℚ) :=
    match hist with
    | none => []
    | some df =>
      let chol_cohort := df.filter
        (fun r => decide (total_chol - 20 ≤ r.total_cholesterol ∧
                          r.total_cholesterol ≤ total_chol + 20))
      if 0 < chol_cohort.length then
        [("cohort_size", (chol_cohort.length : ℚ)),
         ("avg_risk_score", roundTo 2 (qmean (chol_cohort.map (fun r => r.risk_score_assigned))))]
      else []
  { category := "Health Metrics"
    factor := "Cholesterol"
    risk_contribution := risk
    weight := weight
    weighted_score := roundTo 4 weighted_score
    supporting_data := comparison_data }

/-- `_score_smoking`: dict lookup on smoking status (raises `KeyError` on
an unmapped status), 15% weight. -/
def score_smoking (hist : Option (List HistRow)) (c : Customer) :
    Except ScoreError ScoringStep :=
  match dictGet smoking_risk_map c.smoking_status with
  | Except.error e => Except.error e
  | Except.ok risk =>
    let weight : ℚ := 15/100
    let weighted_score := risk * weight
    let comparison_data : List (String × ℚ) :=
      match hist with
      | none => []
      | some df =>
        let smoking_cohort := df.filter (fun r => r.smoking_status == c.smoking_status)
        if 0 < smoking_cohort.length then
          [("cohort_size", (smoking_cohort.length : ℚ)),
           ("avg_risk_score", roundTo 2 (qmean (smoking_cohort.map (fun r => r.risk_score_assigned)))),
           ("avg_premium", roundTo 2 (qmean (smoking_cohort.map (fun r => r.annual_premium_assigned))))]
        else []
    Except.ok
      { category := "Lifestyle"
        factor := "Smoking Status"
        risk_contribution := risk
        weight := weight
        weighted_score := roundTo 4 weighted_score
        supporting_data := comparison_data }

/-- `_score_alcohol`: dict lookup on alcohol consumption (raises `KeyError`
on an unmapped level), 5% weight. -/
def score_alcohol (hist : Option (List HistRow)) (c : Customer) :
    Except ScoreError ScoringStep :=
  match dictGet alcohol_risk_map c.alcohol_consumption with
  | Except.error e => Except.error e
  | Except.ok risk =>
    let weight : ℚ := 5/100
    let weighted_score := risk * weight
    let comparison_data : List (String × ℚ) :=
      match hist with
      | none => []
      | some df =>
        let alcohol_cohort := df.filter (fun r => r.alcohol_consumption == c.alcohol_consumption)
        if 0 < alcohol_cohort.length then
          [("cohort_size", (alcohol_cohort.length : ℚ)),
           ("avg_risk_score", roundTo 2 (qmean (alcohol_cohort.map (fun r => r.risk_score_assigned))))]
        else []
    Except.ok
      { category := "Lifestyle"
        factor := "Alcohol Consumption"
        risk_contribution := risk
        weight := weight
        weighted_score := roundTo 4 weighted_score
        supporting_data := comparison_data }

/-- `_score_exercise`: dict lookup on exercise frequency (raises `KeyError`
on an unmapped level), 4% weight. -/
def score_exercise (hist : Option (List HistRow)) (c : Customer) :
    Except ScoreError ScoringStep :=
  match dictGet exercise_risk_map c.exercise_frequency with
  | Except.error e => Except.error e
  | Except.ok risk =>
    let weight : ℚ := 4/100
    let weighted_score := risk * weight
    let comparison_data : List (String × ℚ) :=
      match hist with
      | none => []
      | some df =>
        let exercise_cohort := df.filter (fun r => r.exercise_frequency == c.exercise_frequency)
        if 0 < exercise_cohort.length then
          [("cohort_size", (exercise_cohort.length : ℚ)),
           ("avg_risk_score", roundTo 2 (qmean (exercise_cohort.map (fun r => r.risk_score_assigned)))),
           ("avg_bmi", roundTo 1 (qmean (exercise_cohort.map (fun r => r.bmi))))]
        else []
    Except.ok
      { category := "Lifestyle"
        factor := "Exercise Frequency"
        risk_contribution := risk
        weight := weight
        weighted_score := roundTo 4 weighted_score
        supporting_data := comparison_data }

/-- Number of `;` characters in a string (`str.count(";")`). -/
def countSemis (s : String) : ℕ := s.toList.count ';'

/-- `_score_chronic_conditions`: 0.1 for the literal `"None"`, otherwise
`min(0.95, 0.4 + n*0.2)` where `n` is the number of `;`-separated
conditions; 10% weight; cohort of rows with the same `;` count. -/
def score_chronic_conditions (hist : Option (List HistRow)) (c : Customer) : ScoringStep :=
  let conditions := c.chronic_conditions
  let weight : ℚ := 10/100
  let num_conditions : ℕ :=
    if conditions = "None" then 0 else (pySplit ';' conditions).length
  let risk : ℚ :=
    if conditions = "None" then 1/10
    else min (95/100) (4/10 + (num_conditions : ℚ) * (2/10))
  let weighted_score := risk * weight
  let comparison_data : List (String × ℚ) :=
    match hist with
    | none => []
    | some df =>
      let condition_cohort :=
        if conditions = "None" then df.filter (fun r => r.chronic_conditions == "None")
        else df.filter (fun r => countSemis r.chronic_conditions == countSemis conditions)
      if 0 < condition_cohort.length then
        [("cohort_size", (condition_cohort.length : ℚ)),
         ("avg_risk_score", roundTo 2 (qmean (condition_cohort.map (fun r => r.risk_score_assigned)))),
         ("claim_rate", roundTo 2 (qmean (condition_cohort.map (fun r => if r.claim_filed then 1 else 0)) * 100))]
      else []
  { category := "Medical History"
    factor := "Chronic Conditions"
    risk_contribution := risk
    weight := weight
    weighted_score := roundTo 4 weighted_score
    supporting_data := comparison_data }

/-- `_score_family_history`: 0.2 for the literal `"None"`, otherwise
`min(0.8, 0.4 + n*0.2)`; 5% weight; cohort of rows with the same `;`
count. -/
def score_family_history (hist : Option (List HistRow)) (c : Customer) : ScoringStep :=
  let family_history := c.family_history
  let weight : ℚ := 5/100
  let num_history : ℕ :=
    if family_history = "None" then 0 else (pySplit ';' family_history).length
  let risk : ℚ :=
    if family_history = "None" then 2/10
    else min (8/10) (4/10 + (num_history : ℚ) * (2/10))
  let weighted_score := risk * weight
  let comparison_data : List (String × ℚ) :=
    match hist with
    | none => []
    | some df =>
      let history_cohort :=
        if family_history = "None" then df.filter (fun r => r.family_history == "None")
        else df.filter (fun r => countSemis r.family_history == countSemis family_history)
      if 0 < history_cohort.length then
        [("cohort_size", (history_cohort.length : ℚ)),
         ("avg_risk_score", roundTo 2 (qmean (history_cohort.map (fun r => r.risk_score_assigned))))]
      else []
  { category := "Medical History"
    factor := "Family History"
    risk_contribution := risk
    weight := weight
    weighted_score := roundTo 4 weighted_score
    supporting_data := comparison_data }

/-- `_score_hobbies`: 0.1 for the literal `"None"`, otherwise 0.9;
3% weight; cohort of rows with (resp. without) a dangerous hobby. -/
def score_hobbies (hist : Option (List HistRow)) (c : Customer) : ScoringStep :=
  let hobby := c.dangerous_hobbies
  let weight : ℚ := 3/100
  let risk : ℚ := if hobby = "None" then 1/10 else 9/10
  let weighted_score := risk * weight
  let comparison_data : List (String × ℚ) :=
    match hist with
    | none => []
    | some df =>
      let hobby_cohort :=
        if hobby = "None" then df.filter (fun r => r.dangerous_hobbies == "None")
        else df.filter (fun r => r.dangerous_hobbies != "None")
      if 0 < hobby_cohort.length then
        [("cohort_size", (hobby_cohort.length : ℚ)),
         ("avg_risk_score", roundTo 2 (qmean (hobby_cohort.map (fun r => r.risk_score_assigned))))]
      else []
  { category := "Lifestyle"
    factor := "Dangerous Hobbies"
    risk_contribution := risk
    weight := weight
    weighted_score := roundTo 4 weighted_score
    supporting_data := comparison_data }

/-- The price band computed by `_calculate_pricing`. -/
structure PricingBand where
  low : ℚ
  calculated : ℚ
  recommended : ℚ
  high : ℚ
  deriving DecidableEq

/-- The age-tiered base annual premium per $1000 of coverage used by
`_calculate_pricing`. -/
def base_rate_table (age : ℚ) : ℚ :=
  if age < 30 then 60/100
  else if age < 40 then 80/100
  else if age < 50 then 150/100
  else if age < 60 then 3
  else 6

/-- `_calculate_pricing`: price boundaries and the pure-math recommended
price from the risk score. -/
def calculate_pricing (c : Customer) (risk_score : ℚ) : PricingBand :=
  let base_rate := base_rate_table c.age
  let risk_multiplier := 1/2 + risk_score * 3
  let coverage_thousands := (c.coverage_amount_requested : ℚ) / 1000
  let base_annual_premium := base_rate * coverage_thousands * risk_multiplier
  let low_boundary := base_annual_premium * (85/100)
  let high_boundary := base_annual_premium * (125/100)
  let recommended :=
    if risk_score < 3/10 then low_boundary + (high_boundary - low_boundary) * (4/10)
    else if risk_score < 6/10 then low_boundary + (high_boundary - low_boundary) * (6/10)
    else low_boundary + (high_boundary - low_boundary) * (75/100)
  { low := low_boundary
    calculated := recommended
    recommended := recommended
    high := high_boundary }

/-- The pair returned by `_estimate_policy_metrics`. -/
structure PolicyMetrics where
  predicted_duration_years : ℚ
  attrition_likelihood : ℚ
  deriving DecidableEq

/-- The closed-form fallback of `_estimate_policy_metrics`. -/
def metrics_fallback (risk_score : ℚ) : PolicyMetrics :=
  { predicted_duration_years := max 3 (min 20 (12 - risk_score * 6))
    attrition_likelihood := max (5/100) (min (6/10) (12/100 + risk_score * (25/100))) }

/-- The primary cohort of `_estimate_policy_metrics`: age within ± 5 years,
same occupation class, same smoking status. -/
def cohort_primary (df : List HistRow) (c : Customer) : List HistRow :=
  ((df.filter (fun r => decide (c.age - 5 ≤ r.age ∧ r.age ≤ c.age + 5))).filter
      (fun r => r.occupation_class == c.occupation_class)).filter
    (fun r => r.smoking_status == c.smoking_status)

/-- The first relaxation: age widened to ± 10 years, occupation-class
filter dropped, smoking status kept. -/
def cohort_relaxed (df : List HistRow) (c : Customer) : List HistRow :=
  (df.filter (fun r => decide (c.age - 10 ≤ r.age ∧ r.age ≤ c.age + 10))).filter
    (fun r => r.smoking_status == c.smoking_status)

/-- The second relaxation: only the age ± 10 filter. -/
def cohort_age_only (df : List HistRow) (c : Customer) : List HistRow :=
  df.filter (fun r => decide (c.age - 10 ≤ r.age ∧ r.age ≤ c.age + 10))

/-- The cohort-selection logic of `_estimate_policy_metrics`: primary
cohort, relaxed when it has fewer than 50 rows, age-only when the current
cohort has fewer than 30 rows. -/
def select_cohort (df : List HistRow) (c : Customer) : List HistRow :=
  let cohort := cohort_primary df c
  let cohort := if cohort.length < 50 then cohort_relaxed df c else cohort
  if cohort.length < 30 then cohort_age_only df c else cohort

/-- Tenures in years of the accepted rows whose issue dates parse
(`pd.to_datetime(..., errors="coerce")` followed by `.dropna()`):
`(today - issue_date).days / 365.25`, in row order. -/
def tenure_years_of (today : ℤ) (accepted : List HistRow) : List ℚ :=
  (accepted.map (fun r => r.policy_issue_date.map
    (fun d => ((today - d : ℤ) : ℚ) / (36525/100)))).filterMap id

/-- The tail of `_estimate_policy_metrics` after cohort selection: the
accepted-policy subset, attrition as one minus the active rate, average
tenure (of still-active rows when the tenure list aligns with the accepted
rows and some active tenure exists, else of all parsed tenures), with the
code's fallbacks and clamps. -/
def metrics_from_cohort (today : ℤ) (risk_score : ℚ) (cohort : List HistRow) :
    PolicyMetrics :=
  let accepted := cohort.filter (fun r => r.policy_accepted)
  if accepted.isEmpty then metrics_fallback risk_score
  else
    let active_rate := qmean (accepted.map (fun r => if r.policy_active then 1 else 0))
    let attrition_likelihood := 1 - active_rate
    let tenure_years := tenure_years_of today accepted
    if tenure_years.isEmpty then metrics_fallback risk_score
    else
      let active_tenure :=
        if tenure_years.length = accepted.length then
          ((accepted.zip tenure_years).filter (fun p => p.1.policy_active)).map (fun p => p.2)
        else tenure_years
      let avg_tenure := if active_tenure.isEmpty then qmean tenure_years else qmean active_tenure
      { predicted_duration_years := max 1 (min 30 avg_tenure)
        attrition_likelihood := max 0 (min 1 attrition_likelihood) }

/-- `_estimate_policy_metrics`: closed-form fallback when there is no
historical data, else the cohort-derived estimate. -/
def estimate_policy_metrics (hist : Option (List HistRow)) (today : ℤ)
    (c : Customer) (risk_score : ℚ) : PolicyMetrics :=
  match hist with
  | none => metrics_fallback risk_score
  | some df =>
    if df.isEmpty then metrics_fallback risk_score
    else metrics_from_cohort today risk_score (select_cohort df c)

/-- `_calculate_confidence`: multiplicative confidence score mapped to a
four-level label. -/
def calculate_confidence (c : Customer) (steps : List ScoringStep) : String :=
  let confidence_score : ℚ := 1
  let confidence_score :=
    if c.age < 25 ∨ 70 < c.age then confidence_score * (9/10) else confidence_score
  let total_risk := (steps.map (fun s => s.weighted_score)).sum
  let confidence_score :=
    if 7/10 < total_risk then confidence_score * (85/100) else confidence_score
  let confidence_score :=
    if c.dangerous_hobbies ≠ "None" then confidence_score * (9/10) else confidence_score
  let confidence_score :=
    if c.chronic_conditions ≠ "None" ∧ 2 ≤ (pySplit ';' c.chronic_conditions).length
    then confidence_score * (92/100) else confidence_score
  if 95/100 ≤ confidence_score then "Very High"
  else if 85/100 ≤ confidence_score then "High"
  else if 75/100 ≤ confidence_score then "Moderate"
  else "Low"

/-- `score_customer`: normalize the record, run the twelve factor scorers
in order (the four dict-backed ones can fail), sum the weighted scores,
derive pricing, confidence and policy metrics, and assemble the result.
`today` is the day number `pd.Timestamp.today()` returns inside
`_estimate_policy_metrics`. -/
def score_customer (hist : Option (List HistRow)) (today : ℤ) (c0 : Customer) :
    Except ScoreError PricingResult :=
  let c := normalize_customer_inputs c0
  let age_step := score_age hist c
  let gender_step := score_gender hist c
  match score_occupation hist c with
  | Except.error e => Except.error e
  | Except.ok occupation_step =>
  let bmi_step := score_bmi hist c
  let bp_step := score_blood_pressure hist c
  let chol_step := score_cholesterol hist c
  match score_smoking hist c with
  | Except.error e => Except.error e
  | Except.ok smoking_step =>
  match score_alcohol hist c with
  | Except.error e => Except.error e
  | Except.ok alcohol_step =>
  match score_exercise hist c with
  | Except.error e => Except.error e
  | Except.ok exercise_step =>
  let chronic_step := score_chronic_conditions hist c
  let family_step := score_family_history hist c
  let hobby_step := score_hobbies hist c
  let scoring_steps :=
    [age_step, gender_step, occupation_step, bmi_step, bp_step, chol_step,
     smoking_step, alcohol_step, exercise_step, chronic_step, family_step, hobby_step]
  let total_risk_score := (scoring_steps.map (fun s => s.weighted_score)).sum
  let pricing := calculate_pricing c total_risk_score
  let confidence := calculate_confidence c scoring_steps
  let policy_metrics := estimate_policy_metrics hist today c total_risk_score
  Except.ok
    { customer_id := c.customer_id
      final_risk_score := roundTo 4 total_risk_score
      annual_premium_low := roundTo 2 pricing.low
      annual_premium_calculated := roundTo 2 pricing.calculated
      annual_premium_recommended := roundTo 2 pricing.recommended
      annual_premium_high := roundTo 2 pricing.high
      predicted_policy_duration_years := roundTo 1 policy_metrics.predicted_duration_years
      attrition_likelihood := roundTo 3 policy_metrics.attrition_likelihood
      scoring_steps := scoring_steps
      confidence_level := confidence }

/-- The numeric-and-label core of a scoring step: every field except the
history-derived `supporting_data`. -/
def stepCore (s : ScoringStep) : String × String × ℚ × ℚ × ℚ :=
  (s.category, s.factor, s.risk_contribution, s.weight, s.weighted_score)

/-- The score-and-price projection of a result: the final risk score and
the four premium figures. -/
def priceProj (r : PricingResult) : ℚ × ℚ × ℚ × ℚ × ℚ :=
  (r.final_risk_score, r.annual_premium_low, r.annual_premium_calculated,
   r.annual_premium_recommended, r.annual_premium_high)

/-- Every field of a result except `predicted_policy_duration_years`. -/
def resultNoDuration (r : PricingResult) :
    String × ℚ × ℚ × ℚ × ℚ × ℚ × ℚ × List ScoringStep × String :=
  (r.customer_id, r.final_risk_score, r.annual_premium_low,
   r.annual_premium_calculated, r.annual_premium_recommended,
   r.annual_premium_high, r.attrition_likelihood, r.scoring_steps,
   r.confidence_level)

/-- Unwrap a scoring result, with a junk default for the error case (used
only to state facts about calls known to succeed). -/
def getOr (e : Except ScoreError PricingResult) : PricingResult :=
  match e with
  | Except.ok r => r
  | Except.error _ =>
    { customer_id := "", final_risk_score := 0, annual_premium_low := 0,
      annual_premium_calculated := 0, annual_premium_recommended := 0,
      annual_premium_high := 0, predicted_policy_duration_years := 0,
      attrition_likelihood := 0, scoring_steps := [], confidence_level := "" }

/-- A healthy 35-year-old baseline applicant used as a concrete test
input. -/
def cBase : Customer :=
  { customer_id := "C001", age := 35, gender := "Male", occupation := "Engineer",
    occupation_class := "Class I (Low Risk)", height_inches := 70, weight_lbs := 170,
    bmi := 24, blood_pressure_systolic := 118, blood_pressure_diastolic := 76,
    total_cholesterol := 180, hdl_cholesterol := 55, ldl_cholesterol := 100,
    smoking_status := "Never", alcohol_consumption := "None",
    exercise_frequency := "Active (5+/week)", chronic_conditions := "None",
    family_history := "None", dangerous_hobbies := "None", annual_income := 90000,
    coverage_amount_requested := 500000, credit_score := 720, existing_coverage := 0 }

/-- The baseline applicant with the unmapped occupation class
`"Class V"`. -/
def cClassV : Customer := { cBase with occupation_class := "Class V" }

/-- The baseline applicant with exactly two chronic conditions. -/
def cChronic2 : Customer := { cBase with chronic_conditions := "Diabetes;Hypertension" }

/-- A historical row matching the baseline applicant's primary cohort,
with an accepted, still-active policy issued on day 0. -/
def rowBase : HistRow :=
  { age := 35, gender := "Male", occupation_class := "Class I (Low Risk)", bmi := 24,
    blood_pressure_systolic := 118, total_cholesterol := 180, smoking_status := "Never",
    alcohol_consumption := "None", exercise_frequency := "Active (5+/week)",
    chronic_conditions := "None", family_history := "None", dangerous_hobbies := "None",
    risk_score_assigned := 1/4, annual_premium_assigned := 500, claim_filed := false,
    policy_accepted := true, policy_active := true, policy_issue_date := some 0 }

/-- A historical row 8 years older than the baseline applicant: inside the
± 10-year window but outside the ± 5-year one. -/
def rowFar : HistRow := { rowBase with age := 43 }

/- ------------------------------------------------------------------ -/
/- Lemmas about rounding.                                              -/
/- ------------------------------------------------------------------ -/

theorem roundHalfEven_intCast (m : ℤ) : roundHalfEven (m : ℚ) = m := by
  unfold roundHalfEven
  simp only [Int.floor_intCast, sub_self]
  norm_num

theorem roundTo_eq_self {n : ℕ} {x : ℚ} (h : ∃ m : ℤ, x * 10 ^ n = m) :
    roundTo n x = x := by
  obtain ⟨m, hm⟩ := h
  have hpow : ((10 : ℚ) ^ n) ≠ 0 := by positivity
  unfold roundTo
  rw [hm, roundHalfEven_intCast]
  rw [eq_comm, ← hm]
  field_simp

theorem roundTo_isDecimal (n : ℕ) (x : ℚ) : ∃ m : ℤ, roundTo n x * 10 ^ n = m := by
  refine ⟨roundHalfEven (x * 10 ^ n), ?_⟩
  have hpow : ((10 : ℚ) ^ n) ≠ 0 := by positivity
  unfold roundTo
  field_simp

theorem sum_isDecimal {t : ℚ} {l : List ℚ} (h : ∀ q ∈ l, ∃ m : ℤ, q * t = m) :
    ∃ m : ℤ, l.sum * t = m := by
  induction l with
  | nil => exact ⟨0, by simp⟩
  | cons q l ih =>
    obtain ⟨m, hm⟩ := h q (List.mem_cons_self q l)
    obtain ⟨m2, hm2⟩ := ih (fun p hp => h p (List.mem_cons_of_mem q hp))
    exact ⟨m + m2, by push_cast [List.sum_cons, add_mul, hm, hm2]; ring⟩

theorem roundHalfEven_nonneg {x : ℚ} (h : 0 ≤ x) : 0 ≤ roundHalfEven x := by
  have h0 : 0 ≤ ⌊x⌋ := Int.floor_nonneg.mpr h
  unfold roundHalfEven
  dsimp only
  split_ifs <;> omega

theorem roundTo_nonneg {n : ℕ} {x : ℚ} (h : 0 ≤ x) : 0 ≤ roundTo n x := by
  have h1 : (0 : ℚ) ≤ x * 10 ^ n := by positivity
  have h2 := roundHalfEven_nonneg h1
  unfold roundTo
  have h3 : (0 : ℚ) ≤ (roundHalfEven (x * 10 ^ n) : ℚ) := by exact_mod_cast h2
  positivity

/- ------------------------------------------------------------------ -/
/- Lemmas about dict lookups.                                          -/
/- ------------------------------------------------------------------ -/

theorem lookup_mem {m : RiskMap} {k : String} {v : ℚ}
    (h : m.lookup k = some v) : v ∈ m.map Prod.snd := by
  induction m with
  | nil => simp [List.lookup] at h
  | cons p rest ih =>
    rw [List.lookup] at h
    rcases hk : (k == p.1) with _ | _
    · rw [hk] at h
      exact List.mem_cons_of_mem _ (ih h)
    · rw [hk] at h
      simp only [Option.some.injEq] at h
      subst h
      exact List.mem_cons_self _ _

theorem dictGet_ok_mem {m : RiskMap} {k : String} {v : ℚ}
    (h : dictGet m k = Except.ok v) : v ∈ m.map Prod.snd := by
  unfold dictGet at h
  rcases hl : m.lookup k with _ | w <;> rw [hl] at h
  · simp at h
  · simp only [Except.ok.injEq] at h
    subst h
    exact lookup_mem hl

/- ------------------------------------------------------------------ -/
/- Per-factor lemmas: weighted score shape, weight literal, risk ≥ 0,  -/
/- and independence of the numeric core from the historical data.      -/
/- ------------------------------------------------------------------ -/

theorem score_age_facts (h : Option (List HistRow)) (c : Customer) :
    (score_age h c).weighted_score =
        roundTo 4 ((score_age h c).risk_contribution * (score_age h c).weight) ∧
      (score_age h c).weight = 20/100 ∧ 0 ≤ (score_age h c).risk_contribution := by
  refine ⟨rfl, rfl, ?_⟩
  unfold score_age
  dsimp only
  split_ifs <;> norm_num

theorem score_gender_facts (h : Option (List HistRow)) (c : Customer) :
    (score_gender h c).weighted_score =
        roundTo 4 ((score_gender h c).risk_contribution * (score_gender h c).weight) ∧
      (score_gender h c).weight = 5/100 ∧ 0 ≤ (score_gender h c).risk_contribution := by
  refine ⟨rfl, rfl, ?_⟩
  unfold score_gender
  dsimp only
  split_ifs <;> norm_num

theorem score_bmi_facts (h : Option (List HistRow)) (c : Customer) :
    (score_bmi h c).weighted_score =
        roundTo 4 ((score_bmi h c).risk_contribution * (score_bmi h c).weight) ∧
      (score_bmi h c).weight = 15/100 ∧ 0 ≤ (score_bmi h c).risk_contribution := by
  refine ⟨rfl, rfl, ?_⟩
  unfold score_bmi
  dsimp only
  split_ifs <;> norm_num

theorem score_blood_pressure_facts (h : Option (List HistRow)) (c : Customer) :
    (score_blood_pressure h c).weighted_score =
        roundTo 4 ((score_blood_pressure h c).risk_contribution *
          (score_blood_pressure h c).weight) ∧
      (score_blood_pressure h c).weight = 10/100 ∧
      0 ≤ (score_blood_pressure h c).risk_contribution := by
  refine ⟨rfl, rfl, ?_⟩
  unfold score_blood_pressure
  dsimp only
  split_ifs <;> norm_num

theorem score_cholesterol_facts (h : Option (List HistRow)) (c : Customer) :
    (score_cholesterol h c).weighted_score =
        roundTo 4 ((score_cholesterol h c).risk_contribution *
          (score_cholesterol h c).weight) ∧
      (score_cholesterol h c).weight = 8/100 ∧
      0 ≤ (score_cholesterol h c).risk_contribution := by
  refine ⟨rfl, rfl, ?_⟩
  unfold score_cholesterol
  dsimp only
  split_ifs <;> norm_num

theorem score_chronic_conditions_facts (h : Option (List HistRow)) (c : Customer) :
    (score_chronic_conditions h c).weighted_score =
        roundTo 4 ((score_chronic_conditions h c).risk_contribution *
          (score_chronic_conditions h c).weight) ∧
      (score_chronic_conditions h c).weight = 10/100 ∧
      0 ≤ (score_chronic_conditions h c).risk_contribution := by
  refine ⟨rfl, rfl, ?_⟩
  unfold score_chronic_conditions
  dsimp only
  split_ifs <;> positivity

theorem score_family_history_facts (h : Option (List HistRow)) (c : Customer) :
    (score_family_history h c).weighted_score =
        roundTo 4 ((score_family_history h c).risk_contribution *
          (score_family_history h c).weight) ∧
      (score_family_history h c).weight = 5/100 ∧
      0 ≤ (score_family_history h c).risk_contribution := by
  refine ⟨rfl, rfl, ?_⟩
  unfold score_family_history
  dsimp only
  split_ifs <;> positivity

theorem score_hobbies_facts (h : Option (List HistRow)) (c : Customer) :
    (score_hobbies h c).weighted_score =
        roundTo 4 ((score_hobbies h c).risk_contribution * (score_hobbies h c).weight) ∧
      (score_hobbies h c).weight = 3/100 ∧ 0 ≤ (score_hobbies h c).risk_contribution := by
  refine ⟨rfl, rfl, ?_⟩
  unfold score_hobbies
  dsimp only
  split_ifs <;> norm_num

theorem score_occupation_ok_facts {h : Option (List HistRow)} {c : Customer}
    {s : ScoringStep} (hok : score_occupation h c = Except.ok s) :
    s.weighted_score = roundTo 4 (s.risk_contribution * s.weight) ∧
      s.weight = 10/100 ∧ 0 ≤ s.risk_contribution := by
  unfold score_occupation at hok
  rcases hd : dictGet occupation_risk_map c.occupation_class with e | v <;> rw [hd] at hok
  · simp at hok
  · simp only [Except.ok.injEq] at hok
    subst hok
    refine ⟨rfl, rfl, ?_⟩
    have hv := dictGet_ok_mem hd
    have hall : ∀ w ∈ occupation_risk_map.map Prod.snd, (0:ℚ) ≤ w := by
      with_unfolding_all decide
    exact hall _ hv

theorem score_smoking_ok_facts {h : Option (List HistRow)} {c : Customer}
    {s : ScoringStep} (hok : score_smoking h c = Except.ok s) :
    s.weighted_score = roundTo 4 (s.risk_contribution * s.weight) ∧
      s.weight = 15/100 ∧ 0 ≤ s.risk_contribution := by
  unfold score_smoking at hok
  rcases hd : dictGet smoking_risk_map c.smoking_status with e | v <;> rw [hd] at hok
  · simp at hok
  · simp only [Except.ok.injEq] at hok
    subst hok
    refine ⟨rfl, rfl, ?_⟩
    have hv := dictGet_ok_mem hd
    have hall : ∀ w ∈ smoking_risk_map.map Prod.snd, (0:ℚ) ≤ w := by
      with_unfolding_all decide
    exact hall _ hv

theorem score_alcohol_ok_facts {h : Option (List HistRow)} {c : Customer}
    {s : ScoringStep} (hok : score_alcohol h c = Except.ok s) :
    s.weighted_score = roundTo 4 (s.risk_contribution * s.weight) ∧
      s.weight = 5/100 ∧ 0 ≤ s.risk_contribution := by
  unfold score_alcohol at hok
  rcases hd : dictGet alcohol_risk_map c.alcohol_consumption with e | v <;> rw [hd] at hok
  · simp at hok
  · simp only [Except.ok.injEq] at hok
    subst hok
    refine ⟨rfl, rfl, ?_⟩
    have hv := dictGet_ok_mem hd
    have hall : ∀ w ∈ alcohol_risk_map.map Prod.snd, (0:ℚ) ≤ w := by
      with_unfolding_all decide
    exact hall _ hv

theorem score_exercise_ok_facts {h : Option (List HistRow)} {c : Customer}
    {s : ScoringStep} (hok : score_exercise h c = Except.ok s) :
    s.weighted_score = roundTo 4 (s.risk_contribution * s.weight) ∧
      s.weight = 4/100 ∧ 0 ≤ s.risk_contribution := by
  unfold score_exercise at hok
  rcases hd : dictGet exercise_risk_map c.exercise_frequency with e | v <;> rw [hd] at hok
  · simp at hok
  · simp only [Except.ok.injEq] at hok
    subst hok
    refine ⟨rfl, rfl, ?_⟩
    have hv := dictGet_ok_mem hd
    have hall : ∀ w ∈ exercise_risk_map.map Prod.snd, (0:ℚ) ≤ w := by
      with_unfolding_all decide
    exact hall _ hv

theorem score_occupation_core (h h' : Option (List HistRow)) (c : Customer) :
    Except.map stepCore (score_occupation h c) =
      Except.map stepCore (score_occupation h' c) := by
  unfold score_occupation
  rcases hd : dictGet occupation_risk_map c.occupation_class with e | v <;> rfl

theorem score_smoking_core (h h' : Option (List HistRow)) (c : Customer) :
    Except.map stepCore (score_smoking h c) =
      Except.map stepCore (score_smoking h' c) := by
  unfold score_smoking
  rcases hd : dictGet smoking_risk_map c.smoking_status with e | v <;> rfl

theorem score_alcohol_core (h h' : Option (List HistRow)) (c : Customer) :
    Except.map stepCore (score_alcohol h c) =
      Except.map stepCore (score_alcohol h' c) := by
  unfold score_alcohol
  rcases hd : dictGet alcohol_risk_map c.alcohol_consumption with e | v <;> rfl

theorem score_exercise_core (h h' : Option (List HistRow)) (c : Customer) :
    Except.map stepCore (score_exercise h c) =
      Except.map stepCore (score_exercise h' c) := by
  unfold score_exercise
  rcases hd : dictGet exercise_risk_map c.exercise_frequency with e | v <;> rfl

/- ------------------------------------------------------------------ -/
/- Inversion of a successful scoring call.                             -/
/- ------------------------------------------------------------------ -/

theorem score_customer_ok_inversion {hist : Option (List HistRow)} {today : ℤ}
    {c : Customer} {r : PricingResult}
    (h : score_customer hist today c = Except.ok r) :
    ∃ occ smk alc exr,
      score_occupation hist (normalize_customer_inputs c) = Except.ok occ ∧
      score_smoking hist (normalize_customer_inputs c) = Except.ok smk ∧
      score_alcohol hist (normalize_customer_inputs c) = Except.ok alc ∧
      score_exercise hist (normalize_customer_inputs c) = Except.ok exr ∧
      r.scoring_steps =
        [score_age hist (normalize_customer_inputs c),
         score_gender hist (normalize_customer_inputs c), occ,
         score_bmi hist (normalize_customer_inputs c),
         score_blood_pressure hist (normalize_customer_inputs c),
         score_cholesterol hist (normalize_customer_inputs c), smk, alc, exr,
         score_chronic_conditions hist (normalize_customer_inputs c),
         score_family_history hist (normalize_customer_inputs c),
         score_hobbies hist (normalize_customer_inputs c)] ∧
      r.final_risk_score =
        roundTo 4 ((r.scoring_steps.map (fun s => s.weighted_score)).sum) ∧
      r.annual_premium_low =
        roundTo 2 ((calculate_pricing (normalize_customer_inputs c)
          ((r.scoring_steps.map (fun s => s.weighted_score)).sum)).low) ∧
      r.annual_premium_calculated =
        roundTo 2 ((calculate_pricing (normalize_customer_inputs c)
          ((r.scoring_steps.map (fun s => s.weighted_score)).sum)).calculated) ∧
      r.annual_premium_recommended =
        roundTo 2 ((calculate_pricing (normalize_customer_inputs c)
          ((r.scoring_steps.map (fun s => s.weighted_score)).sum)).recommended) ∧
      r.annual_premium_high =
        roundTo 2 ((calculate_pricing (normalize_customer_inputs c)
          ((r.scoring_steps.map (fun s => s.weighted_score)).sum)).high) := by
  simp only [score_customer] at h
  rcases hocc : score_occupation hist (normalize_customer_inputs c) with e | occ <;>
    rw [hocc] at h
  · simp at h
  rcases hsmk : score_smoking hist (normalize_customer_inputs c) with e | smk <;>
    rw [hsmk] at h
  · simp at h
  rcases halc : score_alcohol hist (normalize_customer_inputs c) with e | alc <;>
    rw [halc] at h
  · simp at h
  rcases hexr : score_exercise hist (normalize_customer_inputs c) with e | exr <;>
    rw [hexr] at h
  · simp at h
  simp only [Except.ok.injEq] at h
  subst h
  exact ⟨occ, smk, alc, exr, rfl, rfl, rfl, rfl, rfl, rfl, rfl, rfl, rfl, rfl⟩

theorem weighted_nonneg_of_facts {s : ScoringStep} {w : ℚ}
    (hf : s.weighted_score = roundTo 4 (s.risk_contribution * s.weight) ∧
      s.weight = w ∧ 0 ≤ s.risk_contribution)
    (hw : 0 ≤ w) : 0 ≤ s.weighted_score := by
  obtain ⟨h1, h2, h3⟩ := hf
  rw [h1]
  apply roundTo_nonneg
  apply mul_nonneg h3
  rw [h2]
  exact hw

theorem weighted_isDecimal_of_facts {s : ScoringStep} {w : ℚ}
    (hf : s.weighted_score = roundTo 4 (s.risk_contribution * s.weight) ∧
      s.weight = w ∧ 0 ≤ s.risk_contribution) :
    ∃ m : ℤ, s.weighted_score * 10 ^ 4 = m := by
  rw [hf.1]
  exact roundTo_isDecimal 4 _

/- ------------------------------------------------------------------ -/
/- Error propagation through the four dict-backed factors.             -/
/- ------------------------------------------------------------------ -/

theorem score_occupation_error_of_unmapped {h : Option (List HistRow)} {c : Customer}
    (hl : occupation_risk_map.lookup c.occupation_class = none) :
    score_occupation h c = Except.error (ScoreError.keyError c.occupation_class) := by
  unfold score_occupation dictGet
  rw [hl]

theorem score_occupation_ok_of_mapped (h : Option (List HistRow)) {c : Customer} {v : ℚ}
    (hl : occupation_risk_map.lookup c.occupation_class = some v) :
    ∃ s, score_occupation h c = Except.ok s := by
  unfold score_occupation dictGet
  rw [hl]
  exact ⟨_, rfl⟩

theorem score_smoking_error_of_unmapped {h : Option (List HistRow)} {c : Customer}
    (hl : smoking_risk_map.lookup c.smoking_status = none) :
    score_smoking h c = Except.error (ScoreError.keyError c.smoking_status) := by
  unfold score_smoking dictGet
  rw [hl]

theorem score_smoking_ok_of_mapped (h : Option (List HistRow)) {c : Customer} {v : ℚ}
    (hl : smoking_risk_map.lookup c.smoking_status = some v) :
    ∃ s, score_smoking h c = Except.ok s := by
  unfold score_smoking dictGet
  rw [hl]
  exact ⟨_, rfl⟩

theorem score_alcohol_error_of_unmapped {h : Option (List HistRow)} {c : Customer}
    (hl : alcohol_risk_map.lookup c.alcohol_consumption = none) :
    score_alcohol h c = Except.error (ScoreError.keyError c.alcohol_consumption) := by
  unfold score_alcohol dictGet
  rw [hl]

theorem score_alcohol_ok_of_mapped (h : Option (List HistRow)) {c : Customer} {v : ℚ}
    (hl : alcohol_risk_map.lookup c.alcohol_consumption = some v) :
    ∃ s, score_alcohol h c = Except.ok s := by
  unfold score_alcohol dictGet
  rw [hl]
  exact ⟨_, rfl⟩

theorem score_exercise_error_of_unmapped {h : Option (List HistRow)} {c : Customer}
    (hl : exercise_risk_map.lookup c.exercise_frequency = none) :
    score_exercise h c = Except.error (ScoreError.keyError c.exercise_frequency) := by
  unfold score_exercise dictGet
  rw [hl]

/-- A successful baseline scoring call, packaged for reuse in witnesses. -/
theorem score_cBase_ok :
    score_customer none 0 cBase = Except.ok (getOr (score_customer none 0 cBase)) := by
  with_unfolding_all decide

/- ------------------------------------------------------------------ -/
/- Claim theorems.                                                     -/
/- ------------------------------------------------------------------ -/

/-- C1 (counterexample): at the concrete baseline applicant, the twelve
fixed factor weights carried by the scoring steps sum to 11/10, not to
1.0, so the claimed invariant `sum(weight_i) == 1.0` is false. -/
theorem weights_sum_one_counterexample :
    ((getOr (score_customer none 0 cBase)).scoring_steps.map (fun s => s.weight)).sum ≠ 1 := by
  with_unfolding_all decide

/-- C1 (amended): for every applicant whose scoring call succeeds, the
twelve fixed factor weights of the scoring steps (0.20, 0.05, 0.10, 0.15,
0.10, 0.08, 0.15, 0.05, 0.04, 0.10, 0.05, 0.03) sum to exactly 1.10. -/
theorem weights_sum_amended :
    ∀ (hist : Option (List HistRow)) (today : ℤ) (c : Customer) (r : PricingResult),
      score_customer hist today c = Except.ok r →
      (r.scoring_steps.map (fun s => s.weight)).sum = 11/10 ∧
      r.scoring_steps.length = 12 := by
  intro hist today c r h
  obtain ⟨occ, smk, alc, exr, hocc, hsmk, halc, hexr, hsteps, -⟩ :=
    score_customer_ok_inversion h
  constructor
  · rw [hsteps]
    simp only [List.map_cons, List.map_nil, List.sum_cons, List.sum_nil]
    rw [(score_age_facts hist _).2.1, (score_gender_facts hist _).2.1,
        (score_occupation_ok_facts hocc).2.1, (score_bmi_facts hist _).2.1,
        (score_blood_pressure_facts hist _).2.1, (score_cholesterol_facts hist _).2.1,
        (score_smoking_ok_facts hsmk).2.1, (score_alcohol_ok_facts halc).2.1,
        (score_exercise_ok_facts hexr).2.1, (score_chronic_conditions_facts hist _).2.1,
        (score_family_history_facts hist _).2.1, (score_hobbies_facts hist _).2.1]
    norm_num
  · rw [hsteps]
    rfl

/-- C1 (witness): the amended sum 11/10 realized at the baseline
applicant. -/
theorem weights_sum_amended_witness :
    ((getOr (score_customer none 0 cBase)).scoring_steps.map (fun s => s.weight)).sum = 11/10 :=
  (weights_sum_amended none 0 cBase _ score_cBase_ok).1

/-- C2 (counterexample): an applicant with the unmapped occupation class
`"Class V"` makes the scoring call fail with the bare `KeyError("Class V")`
of the dict subscript, which carries only the value; it is not the
spec's structured `InvalidCategory` error naming both the field and the
value. -/
theorem invalid_category_counterexample :
    score_customer none 0 cClassV = Except.error (ScoreError.keyError "Class V") ∧
    score_customer none 0 cClassV ≠
      Except.error (ScoreError.invalidCategory "occupation_class" "Class V") := by
  constructor
  · with_unfolding_all decide
  · with_unfolding_all decide

/-- C2 (amended): for every applicant holding an unmapped value in
`occupation_class`, `smoking_status`, `alcohol_consumption` or
`exercise_frequency` (the earlier fields in scoring order being mapped),
the scoring call fails with a `KeyError` carrying exactly the unmapped
value — it never silently substitutes a default risk value; the error
does not name the offending field. -/
theorem unmapped_category_raises_keyerror :
    ∀ (hist : Option (List HistRow)) (today : ℤ) (c : Customer),
      (occupation_risk_map.lookup (normalize_customer_inputs c).occupation_class = none →
        score_customer hist today c =
          Except.error (ScoreError.keyError (normalize_customer_inputs c).occupation_class)) ∧
      (∀ v, occupation_risk_map.lookup (normalize_customer_inputs c).occupation_class = some v →
        smoking_risk_map.lookup (normalize_customer_inputs c).smoking_status = none →
        score_customer hist today c =
          Except.error (ScoreError.keyError (normalize_customer_inputs c).smoking_status)) ∧
      (∀ v w, occupation_risk_map.lookup (normalize_customer_inputs c).occupation_class = some v →
        smoking_risk_map.lookup (normalize_customer_inputs c).smoking_status = some w →
        alcohol_risk_map.lookup (normalize_customer_inputs c).alcohol_consumption = none →
        score_customer hist today c =
          Except.error (ScoreError.keyError (normalize_customer_inputs c).alcohol_consumption)) ∧
      (∀ v w u, occupation_risk_map.lookup (normalize_customer_inputs c).occupation_class = some v →
        smoking_risk_map.lookup (normalize_customer_inputs c).smoking_status = some w →
        alcohol_risk_map.lookup (normalize_customer_inputs c).alcohol_consumption = some u →
        exercise_risk_map.lookup (normalize_customer_inputs c).exercise_frequency = none →
        score_customer hist today c =
          Except.error (ScoreError.keyError (normalize_customer_inputs c).exercise_frequency)) := by
  intro hist today c
  refine ⟨?_, ?_, ?_, ?_⟩
  · intro hl
    simp only [score_customer]
    rw [score_occupation_error_of_unmapped hl]
  · intro v hocc hl
    obtain ⟨s1, hs1⟩ := score_occupation_ok_of_mapped hist hocc
    simp only [score_customer]
    rw [hs1, score_smoking_error_of_unmapped hl]
  · intro v w hocc hsmk hl
    obtain ⟨s1, hs1⟩ := score_occupation_ok_of_mapped hist hocc
    obtain ⟨s2, hs2⟩ := score_smoking_ok_of_mapped hist hsmk
    simp only [score_customer]
    rw [hs1, hs2, score_alcohol_error_of_unmapped hl]
  · intro v w u hocc hsmk halc hl
    obtain ⟨s1, hs1⟩ := score_occupation_ok_of_mapped hist hocc
    obtain ⟨s2, hs2⟩ := score_smoking_ok_of_mapped hist hsmk
    obtain ⟨s3, hs3⟩ := score_alcohol_ok_of_mapped hist halc
    simp only [score_customer]
    rw [hs1, hs2, hs3, score_exercise_error_of_unmapped hl]

/-- C2 (witness): the amended behaviour realized at the `"Class V"`
applicant. -/
theorem unmapped_category_raises_keyerror_witness :
    score_customer none 0 cClassV =
      Except.error (ScoreError.keyError (normalize_customer_inputs cClassV).occupation_class) :=
  (unmapped_category_raises_keyerror none 0 cClassV).1 (by with_unfolding_all decide)

/-- C3: the pricing derivation sets `low = base_premium*0.85` and
`high = base_premium*1.25` with `base_premium` built from the age-tiered
base-rate table, the coverage in thousands and the multiplier
`0.5 + risk_score*3`; for every nonnegative risk score and nonnegative
requested coverage, `low ≤ recommended ≤ high`, strictly `low < high`
whenever the requested coverage is positive; and every successful scoring
call produces a nonnegative total risk score, so the bounds apply to every
scored applicant. -/
theorem pricing_band_invariants :
    (∀ (c : Customer) (rs : ℚ), 0 ≤ rs → 0 ≤ c.coverage_amount_requested →
      ((calculate_pricing c rs).low =
          base_rate_table c.age * ((c.coverage_amount_requested : ℚ) / 1000) *
            (1/2 + rs * 3) * (85/100) ∧
        (calculate_pricing c rs).high =
          base_rate_table c.age * ((c.coverage_amount_requested : ℚ) / 1000) *
            (1/2 + rs * 3) * (125/100) ∧
        (calculate_pricing c rs).low ≤ (calculate_pricing c rs).recommended ∧
        (calculate_pricing c rs).recommended ≤ (calculate_pricing c rs).high ∧
        (0 < c.coverage_amount_requested →
          (calculate_pricing c rs).low < (calculate_pricing c rs).high))) ∧
    (∀ (hist : Option (List HistRow)) (today : ℤ) (c : Customer) (r : PricingResult),
      score_customer hist today c = Except.ok r →
      0 ≤ (r.scoring_steps.map (fun s => s.weighted_score)).sum) := by
  constructor
  · intro c rs hrs hcov
    have hbr : 0 < base_rate_table c.age := by
      unfold base_rate_table
      split_ifs <;> norm_num
    have hmul : (0:ℚ) < 1/2 + rs * 3 := by linarith
    have hcovq : (0:ℚ) ≤ (c.coverage_amount_requested : ℚ) / 1000 := by
      have : (0:ℚ) ≤ (c.coverage_amount_requested : ℚ) := by exact_mod_cast hcov
      linarith
    have hbase : (0:ℚ) ≤ base_rate_table c.age *
        ((c.coverage_amount_requested : ℚ) / 1000) * (1/2 + rs * 3) := by positivity
    unfold calculate_pricing
    dsimp only
    refine ⟨rfl, rfl, ?_, ?_, ?_⟩
    · split_ifs <;> nlinarith
    · split_ifs <;> nlinarith
    · intro hpos
      have h1 : (0:ℚ) < (c.coverage_amount_requested : ℚ) / 1000 := by
        have : (0:ℚ) < (c.coverage_amount_requested : ℚ) := by exact_mod_cast hpos
        linarith
      have h2 : (0:ℚ) < base_rate_table c.age *
          ((c.coverage_amount_requested : ℚ) / 1000) * (1/2 + rs * 3) :=
        mul_pos (mul_pos hbr h1) hmul
      nlinarith
  · intro hist today c r h
    obtain ⟨occ, smk, alc, exr, hocc, hsmk, halc, hexr, hsteps, -⟩ :=
      score_customer_ok_inversion h
    have l1 := weighted_nonneg_of_facts
      (score_age_facts hist (normalize_customer_inputs c)) (by norm_num)
    have l2 := weighted_nonneg_of_facts
      (score_gender_facts hist (normalize_customer_inputs c)) (by norm_num)
    have l3 := weighted_nonneg_of_facts (score_occupation_ok_facts hocc) (by norm_num)
    have l4 := weighted_nonneg_of_facts
      (score_bmi_facts hist (normalize_customer_inputs c)) (by norm_num)
    have l5 := weighted_nonneg_of_facts
      (score_blood_pressure_facts hist (normalize_customer_inputs c)) (by norm_num)
    have l6 := weighted_nonneg_of_facts
      (score_cholesterol_facts hist (normalize_customer_inputs c)) (by norm_num)
    have l7 := weighted_nonneg_of_facts (score_smoking_ok_facts hsmk) (by norm_num)
    have l8 := weighted_nonneg_of_facts (score_alcohol_ok_facts halc) (by norm_num)
    have l9 := weighted_nonneg_of_facts (score_exercise_ok_facts hexr) (by norm_num)
    have l10 := weighted_nonneg_of_facts
      (score_chronic_conditions_facts hist (normalize_customer_inputs c)) (by norm_num)
    have l11 := weighted_nonneg_of_facts
      (score_family_history_facts hist (normalize_customer_inputs c)) (by norm_num)
    have l12 := weighted_nonneg_of_facts
      (score_hobbies_facts hist (normalize_customer_inputs c)) (by norm_num)
    rw [hsteps]
    simp only [List.map_cons, List.map_nil, List.sum_cons, List.sum_nil]
    linarith

/-- C3 (witness): the band inequalities realized at the baseline applicant
with risk score 0. -/
theorem pricing_band_invariants_witness :
    (calculate_pricing cBase 0).low ≤ (calculate_pricing cBase 0).recommended ∧
    (calculate_pricing cBase 0).recommended ≤ (calculate_pricing cBase 0).high :=
  ⟨(pricing_band_invariants.1 cBase 0 le_rfl (by decide)).2.2.1,
   (pricing_band_invariants.1 cBase 0 le_rfl (by decide)).2.2.2.1⟩

/-- C4: for every applicant whose scoring call succeeds, the final risk
score equals the sum of the twelve per-step weighted scores exactly (the
externally reported value is the 4-decimal rounding of the total, which
coincides with the exact sum because every per-step weighted score is
itself stored rounded to 4 decimals), and each step's weighted score is
`round(risk_contribution * weight, 4)`. -/
theorem final_score_is_sum :
    ∀ (hist : Option (List HistRow)) (today : ℤ) (c : Customer) (r : PricingResult),
      score_customer hist today c = Except.ok r →
      r.final_risk_score = (r.scoring_steps.map (fun s => s.weighted_score)).sum ∧
      r.scoring_steps.length = 12 ∧
      (∀ s ∈ r.scoring_steps,
        s.weighted_score = roundTo 4 (s.risk_contribution * s.weight)) := by
  intro hist today c r h
  obtain ⟨occ, smk, alc, exr, hocc, hsmk, halc, hexr, hsteps, hfinal, -⟩ :=
    score_customer_ok_inversion h
  have hmem : ∀ s ∈ r.scoring_steps,
      s.weighted_score = roundTo 4 (s.risk_contribution * s.weight) := by
    intro s hs
    rw [hsteps] at hs
    simp only [List.mem_cons, List.not_mem_nil, or_false] at hs
    rcases hs with rfl | rfl | rfl | rfl | rfl | rfl | rfl | rfl | rfl | rfl | rfl | rfl
    · exact (score_age_facts hist _).1
    · exact (score_gender_facts hist _).1
    · exact (score_occupation_ok_facts hocc).1
    · exact (score_bmi_facts hist _).1
    · exact (score_blood_pressure_facts hist _).1
    · exact (score_cholesterol_facts hist _).1
    · exact (score_smoking_ok_facts hsmk).1
    · exact (score_alcohol_ok_facts halc).1
    · exact (score_exercise_ok_facts hexr).1
    · exact (score_chronic_conditions_facts hist _).1
    · exact (score_family_history_facts hist _).1
    · exact (score_hobbies_facts hist _).1
  refine ⟨?_, by rw [hsteps]; rfl, hmem⟩
  rw [hfinal]
  apply roundTo_eq_self
  apply sum_isDecimal
  intro q hq
  simp only [List.mem_map] at hq
  obtain ⟨s, hsmem, rfl⟩ := hq
  rw [hmem s hsmem]
  exact roundTo_isDecimal 4 _

/-- C4 (witness): the equality realized at the baseline applicant. -/
theorem final_score_is_sum_witness :
    (getOr (score_customer none 0 cBase)).final_risk_score =
      ((getOr (score_customer none 0 cBase)).scoring_steps.map
        (fun s => s.weighted_score)).sum :=
  (final_score_is_sum none 0 cBase _ score_cBase_ok).1

/- ------------------------------------------------------------------ -/
/- Lemmas about splitting and tenure lists.                            -/
/- ------------------------------------------------------------------ -/

theorem splitOnChar_length (sep : Char) (l : List Char) :
    (splitOnChar sep l).length = l.count sep + 1 := by
  induction l with
  | nil => rfl
  | cons c cs ih =>
    by_cases h : c = sep
    · simp [splitOnChar, h, List.count_cons, ih]
    · simp only [splitOnChar, if_neg h]
      rcases hs : splitOnChar sep cs with _ | ⟨g, gs⟩
      · simp [hs] at ih
      · simp [hs] at ih ⊢
        simpa [List.count_cons, h] using ih

theorem pySplit_length (sep : Char) (s : String) :
    (pySplit sep s).length = s.data.count sep + 1 := by
  unfold pySplit
  rw [List.length_map, splitOnChar_length]

theorem tenure_years_of_length (t t' : ℤ) (l : List HistRow) :
    (tenure_years_of t l).length = (tenure_years_of t' l).length := by
  unfold tenure_years_of
  induction l with
  | nil => rfl
  | cons r rest ih =>
    simp only [List.map_cons, List.filterMap_cons]
    rcases hd : r.policy_issue_date with _ | d
    · simpa using ih
    · simpa using ih

theorem metrics_from_cohort_attrition_inv (t t' : ℤ) (rs : ℚ) (cohort : List HistRow) :
    (metrics_from_cohort t rs cohort).attrition_likelihood =
      (metrics_from_cohort t' rs cohort).attrition_likelihood := by
  unfold metrics_from_cohort
  by_cases hacc : (cohort.filter (fun r => r.policy_accepted)).isEmpty
  · rw [if_pos hacc, if_pos hacc]
  · rw [if_neg hacc, if_neg hacc]
    dsimp only
    have hlen := tenure_years_of_length t t' (cohort.filter (fun r => r.policy_accepted))
    by_cases hten : (tenure_years_of t (cohort.filter (fun r => r.policy_accepted))).isEmpty
    · have hten' : (tenure_years_of t' (cohort.filter (fun r => r.policy_accepted))).isEmpty := by
        rw [List.isEmpty_iff_length_eq_zero] at hten ⊢
        omega
      rw [if_pos hten, if_pos hten']
    · have hten' : ¬(tenure_years_of t' (cohort.filter (fun r => r.policy_accepted))).isEmpty := by
        rw [List.isEmpty_iff_length_eq_zero] at hten ⊢
        omega
      rw [if_neg hten, if_neg hten']

theorem estimate_attrition_today_inv (hist : Option (List HistRow)) (t t' : ℤ)
    (c : Customer) (rs : ℚ) :
    (estimate_policy_metrics hist t c rs).attrition_likelihood =
      (estimate_policy_metrics hist t' c rs).attrition_likelihood := by
  rcases hist with _ | df
  · rfl
  · simp only [estimate_policy_metrics]
    by_cases hde : df.isEmpty
    · rw [if_pos hde, if_pos hde]
    · rw [if_neg hde, if_neg hde]
      exact metrics_from_cohort_attrition_inv t t' rs (select_cohort df c)

/-- C5: whenever the primary cohort (age ± 5, same occupation class, same
smoking status) has fewer than 50 rows, the duration/attrition estimate is
computed from the relaxed cohort that drops the occupation-class filter and
widens the age window to ± 10 years, and when that relaxed cohort has fewer
than 30 rows the smoking-status filter is dropped too, leaving only the
± 10-year age filter. -/
theorem cohort_relaxation :
    ∀ (df : List HistRow) (today : ℤ) (c : Customer) (rs : ℚ),
      df ≠ [] →
      (cohort_primary df c).length < 50 →
      estimate_policy_metrics (some df) today c rs =
        metrics_from_cohort today rs
          (if (cohort_relaxed df c).length < 30 then cohort_age_only df c
           else cohort_relaxed df c) := by
  intro df today c rs hne h50
  have hde : ¬(df.isEmpty = true) := by
    simp [List.isEmpty_iff, hne]
  simp only [estimate_policy_metrics, select_cohort]
  rw [if_neg hde, if_pos h50]

/-- C5 (witness): a one-row dataset whose single row is 8 years away from
the applicant, so the primary cohort is empty, the relaxed cohort is below
30 and the estimate falls through to the age-only cohort. -/
theorem cohort_relaxation_witness :
    estimate_policy_metrics (some [rowFar]) 0 cBase (3/10) =
      metrics_from_cohort 0 (3/10)
        (if (cohort_relaxed [rowFar] cBase).length < 30 then cohort_age_only [rowFar] cBase
         else cohort_relaxed [rowFar] cBase) :=
  cohort_relaxation [rowFar] 0 cBase (3/10) (by with_unfolding_all decide)
    (by with_unfolding_all decide)

/-- C6: the estimator returns the closed-form fallback
`duration = clamp(12 - risk*6, 3, 20)`,
`attrition = clamp(0.12 + risk*0.25, 0.05, 0.6)` whenever the historical
dataset is absent or empty, the final cohort has no accepted rows, or no
issue dates parse; otherwise the attrition equals
`clamp(1 - mean(policy_active), 0, 1)` over the accepted rows and the
cohort-derived duration is clamped to [1, 30]. -/
theorem policy_metrics_cases :
    ∀ (hist : Option (List HistRow)) (today : ℤ) (c : Customer) (rs : ℚ),
      (metrics_fallback rs).predicted_duration_years = max 3 (min 20 (12 - rs * 6)) ∧
      (metrics_fallback rs).attrition_likelihood =
        max (5/100) (min (6/10) (12/100 + rs * (25/100))) ∧
      (hist = none → estimate_policy_metrics hist today c rs = metrics_fallback rs) ∧
      (hist = some [] → estimate_policy_metrics hist today c rs = metrics_fallback rs) ∧
      (∀ df, hist = some df →
        (select_cohort df c).filter (fun r => r.policy_accepted) = [] →
        estimate_policy_metrics hist today c rs = metrics_fallback rs) ∧
      (∀ df, hist = some df →
        tenure_years_of today ((select_cohort df c).filter (fun r => r.policy_accepted)) = [] →
        estimate_policy_metrics hist today c rs = metrics_fallback rs) ∧
      (∀ df, hist = some df → df ≠ [] →
        (select_cohort df c).filter (fun r => r.policy_accepted) ≠ [] →
        tenure_years_of today ((select_cohort df c).filter (fun r => r.policy_accepted)) ≠ [] →
        (estimate_policy_metrics hist today c rs).attrition_likelihood =
          max 0 (min 1 (1 - qmean (((select_cohort df c).filter
            (fun r => r.policy_accepted)).map
              (fun r => if r.policy_active then 1 else 0)))) ∧
        ∃ avg, (estimate_policy_metrics hist today c rs).predicted_duration_years =
          max 1 (min 30 avg)) := by
  intro hist today c rs
  refine ⟨rfl, rfl, ?_, ?_, ?_, ?_, ?_⟩
  · intro h
    subst h
    rfl
  · intro h
    subst h
    rfl
  · intro df hdf hacc
    subst hdf
    simp only [estimate_policy_metrics]
    by_cases hde : df.isEmpty
    · rw [if_pos hde]
    · rw [if_neg hde]
      unfold metrics_from_cohort
      rw [hacc]
      rfl
  · intro df hdf hten
    subst hdf
    simp only [estimate_policy_metrics]
    by_cases hde : df.isEmpty
    · rw [if_pos hde]
    · rw [if_neg hde]
      unfold metrics_from_cohort
      by_cases hacc : ((select_cohort df c).filter (fun r => r.policy_accepted)).isEmpty
      · rw [if_pos hacc]
      · rw [if_neg hacc]
        dsimp only
        rw [if_pos (by rw [hten]; rfl)]
  · intro df hdf hne hacc hten
    subst hdf
    simp only [estimate_policy_metrics]
    rw [if_neg (by simp [List.isEmpty_iff, hne])]
    unfold metrics_from_cohort
    rw [if_neg (by simp [List.isEmpty_iff, hacc])]
    dsimp only
    rw [if_neg (by simp [List.isEmpty_iff, hten])]
    exact ⟨rfl, _, rfl⟩

/-- C6 (witness): the absent-dataset case realized at the baseline
applicant with risk score 1/2. -/
theorem policy_metrics_cases_witness :
    estimate_policy_metrics none 0 cBase (1/2) = metrics_fallback (1/2) :=
  (policy_metrics_cases none 0 cBase (1/2)).2.2.1 rfl

/-- C7: the chronic-conditions factor assigns risk 0.1 when the field is
the literal `"None"`, and `min(0.95, 0.4 + n*0.2)` otherwise, where
`n ≥ 1` is the number of `;`-separated conditions; its weight is 0.10 and
its weighted score is exactly `risk * 0.10`. -/
theorem chronic_conditions_scoring :
    ∀ (hist : Option (List HistRow)) (c : Customer),
      (c.chronic_conditions = "None" →
        (score_chronic_conditions hist c).risk_contribution = 1/10) ∧
      (c.chronic_conditions ≠ "None" →
        1 ≤ (pySplit ';' c.chronic_conditions).length ∧
        (score_chronic_conditions hist c).risk_contribution =
          min (95/100)
            (4/10 + ((pySplit ';' c.chronic_conditions).length : ℚ) * (2/10))) ∧
      (score_chronic_conditions hist c).weight = 10/100 ∧
      (score_chronic_conditions hist c).weighted_score =
        (score_chronic_conditions hist c).risk_contribution *
          (score_chronic_conditions hist c).weight := by
  intro hist c
  have hw : (score_chronic_conditions hist c).weight = 10/100 := rfl
  have hrisk_none : c.chronic_conditions = "None" →
      (score_chronic_conditions hist c).risk_contribution = 1/10 := by
    intro h
    unfold score_chronic_conditions
    dsimp only
    rw [if_pos h]
  have hrisk_some : c.chronic_conditions ≠ "None" →
      (score_chronic_conditions hist c).risk_contribution =
        min (95/100)
          (4/10 + ((pySplit ';' c.chronic_conditions).length : ℚ) * (2/10)) := by
    intro h
    unfold score_chronic_conditions
    dsimp only
    rw [if_neg h, if_neg h]
  have hws : (score_chronic_conditions hist c).weighted_score =
      (score_chronic_conditions hist c).risk_contribution *
        (score_chronic_conditions hist c).weight := by
    rw [(score_chronic_conditions_facts hist c).1]
    apply roundTo_eq_self
    by_cases h : c.chronic_conditions = "None"
    · rw [hrisk_none h, hw]
      exact ⟨100, by norm_num⟩
    · rw [hrisk_some h, hw]
      rcases min_cases ((95:ℚ)/100)
          (4/10 + ((pySplit ';' c.chronic_conditions).length : ℚ) * (2/10)) with
        ⟨hm, -⟩ | ⟨hm, -⟩ <;> rw [hm]
      · exact ⟨950, by norm_num⟩
      · refine ⟨400 + 200 * ((pySplit ';' c.chronic_conditions).length : ℤ), ?_⟩
        push_cast
        ring
  exact ⟨hrisk_none,
    fun h => ⟨by rw [pySplit_length]; omega, hrisk_some h⟩, hw, hws⟩

/-- C7 (witness): an applicant with exactly two conditions
(`"Diabetes;Hypertension"`) gets the formula risk, which evaluates to
0.8. -/
theorem chronic_conditions_scoring_witness :
    (score_chronic_conditions none cChronic2).risk_contribution =
      min (95/100)
        (4/10 + ((pySplit ';' cChronic2.chronic_conditions).length : ℚ) * (2/10)) ∧
    (score_chronic_conditions none cChronic2).risk_contribution = 8/10 :=
  ⟨((chronic_conditions_scoring none cChronic2).2.1 (by with_unfolding_all decide)).2,
   by with_unfolding_all decide⟩

/-- C8: the final risk score and the four premium figures of a scoring
call are identical whatever historical dataset the engine holds (including
none): history feeds only the per-step supporting data, the narrative text
and the duration/attrition estimate, never the score or the prices. -/
theorem price_independent_of_history :
    ∀ (today : ℤ) (c : Customer) (h1 h2 : Option (List HistRow)),
      Except.map priceProj (score_customer h1 today c) =
        Except.map priceProj (score_customer h2 today c) := by
  intro today c h1 h2
  have hc1 := score_occupation_core h1 h2 (normalize_customer_inputs c)
  have hc2 := score_smoking_core h1 h2 (normalize_customer_inputs c)
  have hc3 := score_alcohol_core h1 h2 (normalize_customer_inputs c)
  have hc4 := score_exercise_core h1 h2 (normalize_customer_inputs c)
  simp only [score_customer]
  rcases ho1 : score_occupation h1 (normalize_customer_inputs c) with e1 | s1 <;>
    rcases ho2 : score_occupation h2 (normalize_customer_inputs c) with e2 | s2 <;>
    rw [ho1, ho2] at hc1 <;> simp only [Except.map] at hc1 ⊢
  · exact congrArg Except.error (Except.error.inj hc1)
  · exact absurd hc1 (by simp)
  · exact absurd hc1 (by simp)
  rcases hs1 : score_smoking h1 (normalize_customer_inputs c) with e1 | t1 <;>
    rcases hs2 : score_smoking h2 (normalize_customer_inputs c) with e2 | t2 <;>
    rw [hs1, hs2] at hc2 <;> simp only [Except.map] at hc2 ⊢
  · exact congrArg Except.error (Except.error.inj hc2)
  · exact absurd hc2 (by simp)
  · exact absurd hc2 (by simp)
  rcases ha1 : score_alcohol h1 (normalize_customer_inputs c) with e1 | u1 <;>
    rcases ha2 : score_alcohol h2 (normalize_customer_inputs c) with e2 | u2 <;>
    rw [ha1, ha2] at hc3 <;> simp only [Except.map] at hc3 ⊢
  · exact congrArg Except.error (Except.error.inj hc3)
  · exact absurd hc3 (by simp)
  · exact absurd hc3 (by simp)
  rcases he1 : score_exercise h1 (normalize_customer_inputs c) with e1 | v1 <;>
    rcases he2 : score_exercise h2 (normalize_customer_inputs c) with e2 | v2 <;>
    rw [he1, he2] at hc4 <;> simp only [Except.map] at hc4 ⊢
  · exact congrArg Except.error (Except.error.inj hc4)
  · exact absurd hc4 (by simp)
  · exact absurd hc4 (by simp)
  have hw1 : s1.weighted_score = s2.weighted_score :=
    congrArg (fun t => t.2.2.2.2) (Except.ok.inj hc1)
  have hw2 : t1.weighted_score = t2.weighted_score :=
    congrArg (fun t => t.2.2.2.2) (Except.ok.inj hc2)
  have hw3 : u1.weighted_score = u2.weighted_score :=
    congrArg (fun t => t.2.2.2.2) (Except.ok.inj hc3)
  have hw4 : v1.weighted_score = v2.weighted_score :=
    congrArg (fun t => t.2.2.2.2) (Except.ok.inj hc4)
  simp only [Except.ok.injEq, priceProj]
  simp only [List.map_cons, List.map_nil, List.sum_cons, List.sum_nil]
  rw [hw1, hw2, hw3, hw4]
  rw [show (score_age h1 (normalize_customer_inputs c)).weighted_score =
    (score_age h2 (normalize_customer_inputs c)).weighted_score from rfl]
  rw [show (score_gender h1 (normalize_customer_inputs c)).weighted_score =
    (score_gender h2 (normalize_customer_inputs c)).weighted_score from rfl]
  rw [show (score_bmi h1 (normalize_customer_inputs c)).weighted_score =
    (score_bmi h2 (normalize_customer_inputs c)).weighted_score from rfl]
  rw [show (score_blood_pressure h1 (normalize_customer_inputs c)).weighted_score =
    (score_blood_pressure h2 (normalize_customer_inputs c)).weighted_score from rfl]
  rw [show (score_cholesterol h1 (normalize_customer_inputs c)).weighted_score =
    (score_cholesterol h2 (normalize_customer_inputs c)).weighted_score from rfl]
  rw [show (score_chronic_conditions h1 (normalize_customer_inputs c)).weighted_score =
    (score_chronic_conditions h2 (normalize_customer_inputs c)).weighted_score from rfl]
  rw [show (score_family_history h1 (normalize_customer_inputs c)).weighted_score =
    (score_family_history h2 (normalize_customer_inputs c)).weighted_score from rfl]
  rw [show (score_hobbies h1 (normalize_customer_inputs c)).weighted_score =
    (score_hobbies h2 (normalize_customer_inputs c)).weighted_score from rfl]

/-- C9 (counterexample): scoring the same applicant against the same
one-row historical dataset at two different clock readings (day 1461 and
day 2922, i.e. 4 versus 8 years after the row's issue date) yields
different results, because `_estimate_policy_metrics` reads
`pd.Timestamp.today()`: the results are not bit-identical, refuting pure
idempotence over (record, dataset) alone. -/
theorem scoring_not_time_invariant :
    score_customer (some [rowBase]) 1461 cBase ≠
      score_customer (some [rowBase]) 2922 cBase := by
  with_unfolding_all decide

/-- C9 (amended): scoring is a pure function of (record, dataset, clock
reading); the clock read inside `_estimate_policy_metrics` can move only
the `predicted_policy_duration_years` field — every other output field is
identical across clock readings. -/
theorem clock_only_moves_duration :
    ∀ (hist : Option (List HistRow)) (t1 t2 : ℤ) (c : Customer),
      Except.map resultNoDuration (score_customer hist t1 c) =
        Except.map resultNoDuration (score_customer hist t2 c) := by
  intro hist t1 t2 c
  simp only [score_customer]
  rcases hocc : score_occupation hist (normalize_customer_inputs c) with e | occ
  · rfl
  rcases hsmk : score_smoking hist (normalize_customer_inputs c) with e | smk
  · rfl
  rcases halc : score_alcohol hist (normalize_customer_inputs c) with e | alc
  · rfl
  rcases hexr : score_exercise hist (normalize_customer_inputs c) with e | exr
  · rfl
  simp only [Except.map, Except.ok.injEq, resultNoDuration]
  rw [estimate_attrition_today_inv hist t1 t2]

/-- C10: the gender factor is total — it never rejects a value: the exact
string `"Male"` yields risk 0.55 and every other string (including
`"Female"` and any unrecognized spelling) yields risk 0.45, with weight
0.05 and weighted score `risk * 0.05`. -/
theorem gender_scoring_total :
    ∀ (hist : Option (List HistRow)) (c : Customer),
      (score_gender hist c).risk_contribution =
        (if c.gender = "Male" then 55/100 else 45/100) ∧
      (score_gender hist c).weight = 5/100 ∧
      (score_gender hist c).weighted_score =
        (if c.gender = "Male" then 55/100 else 45/100) * (5/100) := by
  intro hist c
  have hr : (score_gender hist c).risk_contribution =
      (if c.gender = "Male" then (55:ℚ)/100 else 45/100) := rfl
  refine ⟨hr, rfl, ?_⟩
  rw [(score_gender_facts hist c).1, hr, (score_gender_facts hist c).2.1]
  apply roundTo_eq_self
  by_cases h : c.gender = "Male"
  · rw [if_pos h]
    exact ⟨275, by norm_num⟩
  · rw [if_neg h]
    exact ⟨225, by norm_num⟩

end InsurancePricing
